import Mathlib

/-!
# Verification of the drest REST client library

Shallow embedding of `drest/resource.py` and `drest/api.py`.

Modelling conventions:

* Python values that flow through the client (resource ids, decoded JSON
  bodies, request parameters) are modelled by `PyVal`, with Python's
  truthiness (`PyVal.truthy`) and `str()` formatting (`PyVal.pyStr`).
* The transport handler (`drest/request.py`, not part of the sources) is
  abstracted as a function `Transport` from method, path and params to
  either a `dRestRequestError` or a `(response, decoded content)` pair,
  exactly the interface `resource.py` and `api.py` consume.
* Python exceptions are modelled with `Except` / an `Option` error
  component; object mutation is modelled by explicit state passing.
* Overridable methods (the `filter` hook) become explicit function
  parameters, embedding dynamic dispatch.
-/

/-- Python values: `None`, integers, strings and (JSON-style) dicts. -/
inductive PyVal where
  | none : PyVal
  | int : Int → PyVal
  | str : String → PyVal
  | dict : List (String × PyVal) → PyVal

/-- Python truthiness: `None`, `0`, `''` and `{}` are falsy. -/
def PyVal.truthy : PyVal → Bool
  | PyVal.none => false
  | PyVal.int n => n ≠ 0
  | PyVal.str s => s ≠ ""
  | PyVal.dict l => ¬ l.isEmpty

mutual

/-- Python `repr()` of a value (used by `str()` inside containers). -/
def PyVal.pyRepr : PyVal → String
  | PyVal.none => "None"
  | PyVal.int n => toString n
  | PyVal.str s => "'" ++ s ++ "'"
  | PyVal.dict l => "\x7b" ++ String.intercalate ", " (pyReprEntries l) ++ "\x7d"

/-- `repr()` of the entries of a Python dict. -/
def pyReprEntries : List (String × PyVal) → List String
  | [] => []
  | (k, v) :: rest => ("'" ++ k ++ "': " ++ PyVal.pyRepr v) :: pyReprEntries rest

end

/-- Python `str()` / `'%s' %` formatting of a value. -/
def PyVal.pyStr : PyVal → String
  | PyVal.str s => s
  | v => v.pyRepr

/-- Python `s.lstrip('/')`. -/
def pyLstripSlash (s : String) : String :=
  String.mk (s.data.dropWhile (fun c => c = '/'))

/-- Python `s.rstrip('/')`. -/
def pyRstripSlash (s : String) : String :=
  String.mk (s.data.reverse.dropWhile (fun c => c = '/')).reverse

/-- Python `s.lstrip('/').rstrip('/')` (resource.py line 52). -/
def pyStripSlash (s : String) : String :=
  pyRstripSlash (pyLstripSlash s)

/-- `exc.dRestRequestError(msg, response, content)`: a non-2xx response
surfaced by the transport handler.  The raw response object is opaque to
the client code, so it is modelled by a `Nat` tag. -/
structure DRestRequestError where
  msg : String
  response : Nat
  content : PyVal

/-- Configuration errors: `exc.dRestResourceError` and `exc.dRestAPIError`. -/
inductive DRestError where
  | resourceError : String → DRestError
  | apiError : String → DRestError

/-- Request parameters: a Python dict of params. -/
abbrev Params := List (String × PyVal)

/-- The transport handler's `request(method, path, params)` interface:
either fails with a `dRestRequestError` or returns `(response, content)`. -/
abbrev Transport := String → String → Params → Except DRestRequestError (Nat × PyVal)

/-- State of a `RESTResourceHandler`: its Meta `name` and (slash-stripped)
`path`.  The transport and the (overridable) `filter` hook are passed to
each verb explicitly. -/
structure RESTResourceHandler where
  name : String
  path : String

/-- `RESTResourceHandler.filter` of the base class: returns params unchanged
(resource.py lines 118-128).  Subclasses may override; verbs below take the
dispatched hook as the `filt` argument. -/
def RESTResourceHandler.baseFilter (params : Params) : Params :=
  params

/-- `RESTResourceHandler.get(resource_id=None, params={})`
(resource.py lines 130-157). -/
def RESTResourceHandler.get (tr : Transport) (filt : Params → Params)
    (h : RESTResourceHandler) (resource_id : PyVal) (params : Params) :
    Except DRestRequestError (Nat × PyVal) :=
  let path := if resource_id.truthy
    then "/" ++ h.path ++ "/" ++ resource_id.pyStr
    else "/" ++ h.path
  match tr "GET" path (filt params) with
  | Except.ok rc => Except.ok rc
  | Except.error e =>
      Except.error
        { msg := e.msg ++ " (resource: " ++ h.name ++ ", id: " ++
            resource_id.pyStr ++ ")",
          response := e.response, content := e.content }

/-- `RESTResourceHandler.post(params={})` (resource.py lines 163-182).
Note: the source applies `filter` twice, at line 173 and again at line 177. -/
def RESTResourceHandler.post (tr : Transport) (filt : Params → Params)
    (h : RESTResourceHandler) (params : Params) :
    Except DRestRequestError (Nat × PyVal) :=
  let params := filt params
  let path := "/" ++ h.path
  match tr "POST" path (filt params) with
  | Except.ok rc => Except.ok rc
  | Except.error e =>
      Except.error
        { msg := e.msg ++ " (resource: " ++ h.name ++ ")",
          response := e.response, content := e.content }

/-- `RESTResourceHandler.create`: a synonym for `post` (resource.py 159-161). -/
def RESTResourceHandler.create (tr : Transport) (filt : Params → Params)
    (h : RESTResourceHandler) (params : Params) :
    Except DRestRequestError (Nat × PyVal) :=
  RESTResourceHandler.post tr filt h params

/-- `RESTResourceHandler.put(resource_id, params={})`
(resource.py lines 188-212). -/
def RESTResourceHandler.put (tr : Transport) (filt : Params → Params)
    (h : RESTResourceHandler) (resource_id : PyVal) (params : Params) :
    Except DRestRequestError (Nat × PyVal) :=
  let params := filt params
  let path := "/" ++ h.path ++ "/" ++ resource_id.pyStr
  match tr "PUT" path params with
  | Except.ok rc => Except.ok rc
  | Except.error e =>
      Except.error
        { msg := e.msg ++ " (resource: " ++ h.name ++ ", id: " ++
            resource_id.pyStr ++ ")",
          response := e.response, content := e.content }

/-- `RESTResourceHandler.update`: a synonym for `put` (resource.py 184-186). -/
def RESTResourceHandler.update (tr : Transport) (filt : Params → Params)
    (h : RESTResourceHandler) (resource_id : PyVal) (params : Params) :
    Except DRestRequestError (Nat × PyVal) :=
  RESTResourceHandler.put tr filt h resource_id params

/-- `RESTResourceHandler.delete(resource_id, params={})`
(resource.py lines 214-240).  Note: the source does not apply `filter`. -/
def RESTResourceHandler.delete (tr : Transport) (filt : Params → Params)
    (h : RESTResourceHandler) (resource_id : PyVal) (params : Params) :
    Except DRestRequestError (Nat × PyVal) :=
  let path := "/" ++ h.path ++ "/" ++ resource_id.pyStr
  match tr "DELETE" path params with
  | Except.ok rc => Except.ok rc
  | Except.error e =>
      Except.error
        { msg := e.msg ++ " (resource: " ++ h.name ++ ", id: " ++
            resource_id.pyStr ++ ")",
          response := e.response, content := e.content }

/-- State of a `TastyPieResourceHandler`: the underlying REST handler state
plus the memoized `Meta.schema` (initially `None`, resource.py line 250). -/
structure TastyPieResourceHandler where
  toREST : RESTResourceHandler
  schema : PyVal

/-- The `TastyPieResourceHandler.schema` property (resource.py lines 286-296):
if `self._meta.schema` is falsy, issue `GET '<path>/schema'` and store the
decoded body.  Returns the schema value, the updated handler state, and the
list of requests issued by this access (so that "fetched once" is
observable).  A transport error propagates (the property has no handler). -/
def TastyPieResourceHandler.schemaGet (tr : Transport)
    (h : TastyPieResourceHandler) :
    Except DRestRequestError (PyVal × TastyPieResourceHandler × List (String × String)) :=
  if ¬ h.schema.truthy then
    match tr "GET" (h.toREST.path ++ "/schema") [] with
    | Except.error e => Except.error e
    | Except.ok (_, data) =>
        Except.ok (data, { h with schema := data },
          [("GET", h.toREST.path ++ "/schema")])
  else
    Except.ok (h.schema, h, [])

/-- Helper for Python `s.split(sep)` on a single-character separator:
accumulates the current field (reversed) while walking the characters. -/
def pySplitAux (c : Char) : List Char → List Char → List String
  | [], acc => [String.mk acc.reverse]
  | x :: xs, acc =>
      if x = c then String.mk acc.reverse :: pySplitAux c xs []
      else pySplitAux c xs (x :: acc)

/-- Python `s.split('/')` (keeps empty fields; `''.split('/') == ['']`). -/
def pySplitSlash (s : String) : List String :=
  pySplitAux '/' s.data []

/-- `TastyPieResourceHandler.get_by_uri(resource_uri, params={})`
(resource.py lines 256-284): strip trailing slashes, take the last
`'/'`-separated segment as the pk, and delegate to `get`. -/
def TastyPieResourceHandler.get_by_uri (tr : Transport) (filt : Params → Params)
    (h : TastyPieResourceHandler) (resource_uri : String) (params : Params) :
    Except DRestRequestError (Nat × PyVal) :=
  let stripped := pyRstripSlash resource_uri
  let pk := (pySplitSlash stripped).getLastD ""
  RESTResourceHandler.get tr filt h.toREST (PyVal.str pk) params

/-- State of an `API` connection object: its `repr()` (used in the duplicate
error message), the set of attribute names `hasattr` sees, the `_resources`
list, the attached resource-handler attributes, and the state of the shared
request handler (extra headers and basic-auth credentials). -/
structure APIState where
  objRepr : String
  attrs : List String
  resources : List String
  handlers : List (String × RESTResourceHandler)
  headers : List (String × String)
  credentials : Option (String × String)

/-- `API.add_resource(name, resource_handler=None, path=None)`
(api.py lines 111-132), returning the (possibly) updated state and the
raised error, if any.  Handler construction (resource.py lines 44-62)
asserts `name` then `path` truthy, then strips slashes from the path;
`hasattr(self, name)` is checked before `setattr` and before appending to
`self._resources`. -/
def API.add_resource (st : APIState) (name : String) (pathOpt : Option String) :
    APIState × Option DRestError :=
  let path := match pathOpt with
    | Option.none => name
    | Option.some p => pyLstripSlash p
  if name = "" then
    (st, Option.some (DRestError.resourceError "name required"))
  else if path = "" then
    (st, Option.some (DRestError.resourceError "path required"))
  else
    let handler : RESTResourceHandler := { name := name, path := pyStripSlash path }
    if name ∈ st.attrs then
      (st, Option.some (DRestError.resourceError
        ("The object '" ++ name ++ "' already exist on '" ++ st.objRepr ++ "'")))
    else
      ({ st with
          attrs := st.attrs ++ [name],
          handlers := st.handlers ++ [(name, handler)],
          resources := st.resources ++ [name] }, Option.none)

/-- Attribute names a fresh `TastyPieAPI` connection object carries before
any resource is registered: the methods and fields defined by `API` and
`TastyPieAPI` in api.py (`hasattr` also sees them). -/
def TastyPieAPI.initialAttrs : List String :=
  ["auth", "request", "resources", "add_resource", "find_resources",
   "authViaBasic", "authViaApiKey", "_meta", "_resources", "_request"]

/-- A fresh `TastyPieAPI` connection state: no resources registered yet,
no extra headers, no credentials. -/
def TastyPieAPI.freshState (objRepr : String) : APIState :=
  { objRepr := objRepr, attrs := TastyPieAPI.initialAttrs, resources := [],
    handlers := [], headers := [], credentials := Option.none }

/-- The loop of `TastyPieAPI.find_resources` (api.py lines 263-265): for
each key of the decoded discovery body, if it is not yet in `_resources`,
`add_resource` it; a raised error aborts the loop and propagates. -/
def TastyPieAPI.findResourcesLoop (st : APIState) (keys : List String) :
    APIState × Option DRestError :=
  match keys with
  | [] => (st, Option.none)
  | k :: rest =>
      if k ∈ st.resources then
        TastyPieAPI.findResourcesLoop st rest
      else
        match API.add_resource st k Option.none with
        | (st', Option.none) => TastyPieAPI.findResourcesLoop st' rest
        | (st', Option.some e) => (st', Option.some e)

/-- `TastyPieAPI.find_resources` (api.py lines 257-265) applied to the
decoded body `data` of `GET '/'` (a mapping): iterate over `data.keys()`. -/
def TastyPieAPI.find_resources (st : APIState) (data : List (String × PyVal)) :
    APIState × Option DRestError :=
  TastyPieAPI.findResourcesLoop st (data.map Prod.fst)

/-- Modelled from the spec: `request.py` (not among the sources) supports
header injection; `add_header(key, value)` stores the header under `key`
in the request handler's extra headers, replacing any previous value. -/
def RequestHandler.add_header (hs : List (String × String)) (k v : String) :
    List (String × String) :=
  if hs.any (fun p => p.1 = k) then
    hs.map (fun p => if p.1 = k then (k, v) else p)
  else
    hs ++ [(k, v)]

/-- Modelled from the spec: `request.py` (not among the sources) stores
HTTP Basic credentials via `set_auth_credentials(user, password)`. -/
def RequestHandler.set_auth_credentials (st : APIState) (user password : String) :
    APIState :=
  { st with credentials := Option.some (user, password) }

/-- `TastyPieAPI._auth_via_api_key` (api.py lines 238-255): add an
`Authorization: ApiKey <user>:<key>` header to the shared request handler. -/
def TastyPieAPI.authViaApiKey (st : APIState) (user api_key : String) : APIState :=
  let value := "ApiKey " ++ user ++ ":" ++ api_key
  { st with headers := RequestHandler.add_header st.headers "Authorization" value }

/-- `TastyPieAPI._auth_via_basic` (api.py lines 231-236): delegates to
`API.auth`, which stores basic-auth credentials on the request handler. -/
def TastyPieAPI.authViaBasic (st : APIState) (user password : String) : APIState :=
  RequestHandler.set_auth_credentials st user password

/-- `Meta.auth_mechanizms` of `TastyPieAPI` (api.py line 211). -/
def TastyPieAPI.authMechanizms : List String :=
  ["api_key", "basic"]

/-- `TastyPieAPI.auth(*args, **kw)` (api.py lines 219-229): if
`Meta.auth_mech` is among `Meta.auth_mechanizms`, dispatch to
`_auth_via_<mech>`; otherwise raise `dRestAPIError`. -/
def TastyPieAPI.auth (mech : String) (st : APIState) (user key : String) :
    APIState × Option DRestError :=
  if mech ∈ TastyPieAPI.authMechanizms then
    if mech = "api_key" then
      (TastyPieAPI.authViaApiKey st user key, Option.none)
    else
      (TastyPieAPI.authViaBasic st user key, Option.none)
  else
    (st, Option.some (DRestError.apiError "Unknown TastyPie auth mechanism."))

/-! ## C1: schema memoization -/

/-- A transport whose `GET <path>/schema` body decodes to the empty dict
(which is falsy in Python). -/
def c1Transport : Transport := fun _ _ _ => Except.ok (0, PyVal.dict [])

/-- A fresh `users` TastyPie resource handler (schema not yet fetched). -/
def c1Handler : TastyPieResourceHandler :=
  { toREST := { name := "users", path := "users" }, schema := PyVal.none }

/-- The handler after its first schema access against `c1Transport`. -/
def c1AfterFirst : TastyPieResourceHandler :=
  { toREST := { name := "users", path := "users" }, schema := PyVal.dict [] }

/-- C1 counterexample: the schema is NOT always fetched at most once.  When
the decoded schema body is falsy (here the empty dict), the memoization
test `if not self._meta.schema` fails again on the second access, which
therefore issues a second GET to `users/schema` instead of returning
without a network call. -/
theorem claim_C1_counterexample :
    TastyPieResourceHandler.schemaGet c1Transport c1Handler =
      Except.ok (PyVal.dict [], c1AfterFirst, [("GET", "users/schema")]) ∧
    TastyPieResourceHandler.schemaGet c1Transport c1AfterFirst =
      Except.ok (PyVal.dict [], c1AfterFirst, [("GET", "users/schema")]) ∧
    [("GET", "users/schema")] ≠ ([] : List (String × String)) := by
  refine ⟨rfl, rfl, by simp⟩

/-- C1 (amended): provided the decoded schema body is truthy (e.g. a
non-empty dict), the first access of the `schema` property on a fresh
handler issues exactly one GET to `<path>/schema` and stores the decoded
body, and an access on a handler whose stored schema is that (truthy) value
returns the memoized value and issues no request. -/
theorem claim_C1_schema_memoized (tr : Transport) (h : TastyPieResourceHandler)
    (resp : Nat) (data : PyVal)
    (hfresh : h.schema = PyVal.none)
    (hfetch : tr "GET" (h.toREST.path ++ "/schema") [] = Except.ok (resp, data))
    (htruthy : data.truthy = true) :
    TastyPieResourceHandler.schemaGet tr h =
      Except.ok (data, { h with schema := data }, [("GET", h.toREST.path ++ "/schema")]) ∧
    TastyPieResourceHandler.schemaGet tr { h with schema := data } =
      Except.ok (data, { h with schema := data }, []) := by
  constructor
  · unfold TastyPieResourceHandler.schemaGet
    rw [hfresh]
    simp [PyVal.truthy, hfetch]
  · unfold TastyPieResourceHandler.schemaGet
    simp [htruthy]

/-- A transport whose schema body decodes to a non-empty (truthy) dict. -/
def c1TruthyTr : Transport := fun _ _ _ => Except.ok (7, PyVal.dict [("fields", PyVal.none)])

/-- Witness for C1 (amended) at a concrete handler and transport. -/
theorem claim_C1_witness :
    TastyPieResourceHandler.schemaGet c1TruthyTr c1Handler =
      Except.ok (PyVal.dict [("fields", PyVal.none)],
        { toREST := { name := "users", path := "users" },
          schema := PyVal.dict [("fields", PyVal.none)] },
        [("GET", "users/schema")]) ∧
    TastyPieResourceHandler.schemaGet c1TruthyTr
        { toREST := { name := "users", path := "users" },
          schema := PyVal.dict [("fields", PyVal.none)] } =
      Except.ok (PyVal.dict [("fields", PyVal.none)],
        { toREST := { name := "users", path := "users" },
          schema := PyVal.dict [("fields", PyVal.none)] }, []) :=
  claim_C1_schema_memoized c1TruthyTr c1Handler 7 (PyVal.dict [("fields", PyVal.none)]) rfl rfl rfl

/-! ## C2: get_by_uri delegates to get -/

/-- The trailing path segment of a resource URI after stripping trailing
slashes: the id `get_by_uri` extracts. -/
def trailingSegment (uri : String) : String :=
  (pySplitSlash (pyRstripSlash uri)).getLastD ""

/-- `get` depends on the resource id only through its truthiness and its
`str()` form. -/
theorem get_congr_resource_id (tr : Transport) (filt : Params → Params)
    (h : RESTResourceHandler) (id1 id2 : PyVal) (params : Params)
    (ht : id1.truthy = id2.truthy) (hs : id1.pyStr = id2.pyStr) :
    RESTResourceHandler.get tr filt h id1 params =
      RESTResourceHandler.get tr filt h id2 params := by
  unfold RESTResourceHandler.get
  rw [ht, hs]

/-- C2: for every resource URI, `get_by_uri(uri, params)` returns exactly
`get(id, params)` where `id` is the trailing path segment of the URI after
stripping trailing slashes; in particular `get_by_uri('/api/v1/users/234/')`
agrees with `get(234)` (the numeric id formats to the same path and the
same error annotation). -/
theorem claim_C2_get_by_uri (tr : Transport) (filt : Params → Params)
    (h : TastyPieResourceHandler) (uri : String) (params : Params) :
    TastyPieResourceHandler.get_by_uri tr filt h uri params =
      RESTResourceHandler.get tr filt h.toREST (PyVal.str (trailingSegment uri)) params ∧
    TastyPieResourceHandler.get_by_uri tr filt h "/api/v1/users/234/" params =
      RESTResourceHandler.get tr filt h.toREST (PyVal.int 234) params := by
  constructor
  · rfl
  · have h1 : TastyPieResourceHandler.get_by_uri tr filt h "/api/v1/users/234/" params =
        RESTResourceHandler.get tr filt h.toREST (PyVal.str "234") params := rfl
    rw [h1]
    exact get_congr_resource_id tr filt h.toREST (PyVal.str "234") (PyVal.int 234) params rfl rfl

/-! ## C3: error annotation across the verbs -/

/-- A transport that always fails with message `boom`. -/
def c3FailTr : Transport :=
  fun _ _ _ => Except.error { msg := "boom", response := 7, content := PyVal.none }

/-- A concrete `users` REST resource handler state. -/
def c3Handler : RESTResourceHandler := { name := "users", path := "users" }

/-- C3 counterexample: `post` does NOT annotate the failure message with a
resource id: on a failing transport the raised message is exactly
`boom (resource: users)`, which contains no `id` annotation at all
(resource.py line 179 formats only the resource name). -/
theorem claim_C3_counterexample :
    RESTResourceHandler.post c3FailTr RESTResourceHandler.baseFilter c3Handler [] =
      Except.error { msg := "boom (resource: users)", response := 7, content := PyVal.none } ∧
    ¬ ("id".data <:+: "boom (resource: users)".data) := by
  constructor
  · rfl
  · decide

/-- C3 (amended): on a transport failure every verb re-raises a request
error carrying the original response and content unchanged; `get`, `put`
and `delete` annotate the transport's message with the resource name and
the resource id, while `post` annotates it with the resource name only. -/
theorem claim_C3_error_annotation (tr : Transport) (filt : Params → Params)
    (h : RESTResourceHandler) (rid : PyVal) (params : Params) (e : DRestRequestError)
    (htr : ∀ m p ps, tr m p ps = Except.error e) :
    RESTResourceHandler.get tr filt h rid params = Except.error
      { msg := e.msg ++ " (resource: " ++ h.name ++ ", id: " ++ rid.pyStr ++ ")",
        response := e.response, content := e.content } ∧
    RESTResourceHandler.put tr filt h rid params = Except.error
      { msg := e.msg ++ " (resource: " ++ h.name ++ ", id: " ++ rid.pyStr ++ ")",
        response := e.response, content := e.content } ∧
    RESTResourceHandler.delete tr filt h rid params = Except.error
      { msg := e.msg ++ " (resource: " ++ h.name ++ ", id: " ++ rid.pyStr ++ ")",
        response := e.response, content := e.content } ∧
    RESTResourceHandler.post tr filt h params = Except.error
      { msg := e.msg ++ " (resource: " ++ h.name ++ ")",
        response := e.response, content := e.content } := by
  refine ⟨?_, ?_, ?_, ?_⟩ <;>
    simp [RESTResourceHandler.get, RESTResourceHandler.put,
      RESTResourceHandler.delete, RESTResourceHandler.post, htr]

/-- Witness for C3 (amended) at a concrete handler, id and failing
transport. -/
theorem claim_C3_witness :
    RESTResourceHandler.get c3FailTr RESTResourceHandler.baseFilter c3Handler (PyVal.int 5) [] =
      Except.error { msg := "boom (resource: users, id: 5)", response := 7, content := PyVal.none } ∧
    RESTResourceHandler.put c3FailTr RESTResourceHandler.baseFilter c3Handler (PyVal.int 5) [] =
      Except.error { msg := "boom (resource: users, id: 5)", response := 7, content := PyVal.none } ∧
    RESTResourceHandler.delete c3FailTr RESTResourceHandler.baseFilter c3Handler (PyVal.int 5) [] =
      Except.error { msg := "boom (resource: users, id: 5)", response := 7, content := PyVal.none } ∧
    RESTResourceHandler.post c3FailTr RESTResourceHandler.baseFilter c3Handler [] =
      Except.error { msg := "boom (resource: users)", response := 7, content := PyVal.none } :=
  claim_C3_error_annotation c3FailTr RESTResourceHandler.baseFilter c3Handler (PyVal.int 5) []
    { msg := "boom", response := 7, content := PyVal.none } (fun _ _ _ => rfl)

/-! ## C4 and C10: duplicate resource registration -/

/-- C4: if the name passed to `add_resource` collides with an existing
attribute of the connection object (in particular a name already
registered), the call raises a `dRestResourceError` (a configuration
error) instead of registering the resource. -/
theorem claim_C4_duplicate_name (st : APIState) (name : String) (pathOpt : Option String)
    (hdup : name ∈ st.attrs) :
    ∃ m, (API.add_resource st name pathOpt).2 = Option.some (DRestError.resourceError m) := by
  cases pathOpt <;>
    (simp only [API.add_resource]; split_ifs <;> exact ⟨_, rfl⟩)

/-- A connection state on which `users` is already registered (its name is
among the object's attributes and in `_resources`). -/
def c4State : APIState :=
  { objRepr := "<drest.api.TastyPieAPI object>",
    attrs := TastyPieAPI.initialAttrs ++ ["users"],
    resources := ["users"],
    handlers := [("users", { name := "users", path := "users" })],
    headers := [], credentials := Option.none }

/-- Witness for C4: re-registering `users` fails with a resource error. -/
theorem claim_C4_witness :
    ∃ m, (API.add_resource c4State "users" Option.none).2 =
      Option.some (DRestError.resourceError m) :=
  claim_C4_duplicate_name c4State "users" Option.none
    (by simp [c4State, TastyPieAPI.initialAttrs])

/-- C10: whenever `add_resource` raises (in particular on the
duplicate-name error), the connection state is unchanged: the `resources`
listing is exactly what it was before the call and the attribute set gains
no new name — the error is raised before `setattr` and before the append
to `_resources` (api.py lines 128-132). -/
theorem claim_C10_failure_preserves_state (st : APIState) (name : String)
    (pathOpt : Option String) (e : DRestError)
    (hfail : (API.add_resource st name pathOpt).2 = Option.some e) :
    (API.add_resource st name pathOpt).1.resources = st.resources ∧
    (API.add_resource st name pathOpt).1.attrs = st.attrs := by
  cases pathOpt <;>
    (simp only [API.add_resource] at hfail ⊢; split_ifs at hfail ⊢ <;> simp_all)

/-- Witness for C10: the failing duplicate registration of `users` leaves
`resources` and the attribute set unchanged. -/
theorem claim_C10_witness :
    (API.add_resource c4State "users" Option.none).1.resources = c4State.resources ∧
    (API.add_resource c4State "users" Option.none).1.attrs = c4State.attrs :=
  claim_C10_failure_preserves_state c4State "users" Option.none
    (DRestError.resourceError
      ("The object 'users' already exist on '<drest.api.TastyPieAPI object>'"))
    (by rfl)

/-! ## C5: auto-discovery registers the discovery body's keys -/

/-- A fresh `TastyPieAPI` connection state, as right after construction. -/
def c5FreshState : APIState := TastyPieAPI.freshState "<drest.api.TastyPieAPI object>"

/-- The state after `add_resource` successfully registers name `k` with the
default path. -/
def registeredState (st : APIState) (k : String) : APIState :=
  { st with
      attrs := st.attrs ++ [k],
      handlers := st.handlers ++ [(k, { name := k, path := pyStripSlash k })],
      resources := st.resources ++ [k] }

/-- C5 counterexample: a discovery body whose key collides with an existing
attribute of the connection object (here `request`, a method of `API`)
makes auto-discovery raise a `dRestResourceError` and register nothing, so
the set of registered names is not the set of the body's keys. -/
theorem claim_C5_counterexample :
    (TastyPieAPI.find_resources c5FreshState [("request", PyVal.dict [])]).1.resources = [] ∧
    (TastyPieAPI.find_resources c5FreshState [("request", PyVal.dict [])]).2 =
      Option.some (DRestError.resourceError
        "The object 'request' already exist on '<drest.api.TastyPieAPI object>'") ∧
    ([] : List String) ≠ ["request"] := by
  refine ⟨rfl, rfl, by simp⟩

/-- Invariant of the `find_resources` loop: over keys that are nonempty,
pairwise distinct, not yet attributes and not yet registered, the loop
succeeds and appends exactly those keys to `_resources` (and to the
attribute set). -/
theorem findResourcesLoop_ok (keys : List String) : ∀ st : APIState,
    keys.Nodup → (∀ k ∈ keys, k ≠ "" ∧ k ∉ st.attrs) → (∀ k ∈ keys, k ∉ st.resources) →
    (TastyPieAPI.findResourcesLoop st keys).2 = Option.none ∧
    (TastyPieAPI.findResourcesLoop st keys).1.resources = st.resources ++ keys ∧
    (TastyPieAPI.findResourcesLoop st keys).1.attrs = st.attrs ++ keys := by
  induction keys with
  | nil =>
      intro st _ _ _
      simp [TastyPieAPI.findResourcesLoop]
  | cons k rest ih =>
      intro st hnd hattrs hres
      have hk : k ≠ "" := (hattrs k (by simp)).1
      have hka : k ∉ st.attrs := (hattrs k (by simp)).2
      have hkr : k ∉ st.resources := hres k (by simp)
      have hnd' := List.nodup_cons.mp hnd
      have hadd : API.add_resource st k Option.none = (registeredState st k, Option.none) := by
        simp [API.add_resource, registeredState, hk, hka]
      simp only [TastyPieAPI.findResourcesLoop]
      rw [if_neg hkr, hadd]
      have hattrs' : ∀ x ∈ rest, x ≠ "" ∧ x ∉ (registeredState st k).attrs := by
        intro x hx
        refine ⟨(hattrs x (by simp [hx])).1, ?_⟩
        simp only [registeredState, List.mem_append, List.mem_singleton]
        rintro (hmem | hxk)
        · exact (hattrs x (by simp [hx])).2 hmem
        · exact hnd'.1 (hxk ▸ hx)
      have hres' : ∀ x ∈ rest, x ∉ (registeredState st k).resources := by
        intro x hx
        simp only [registeredState, List.mem_append, List.mem_singleton]
        rintro (hmem | hxk)
        · exact hres x (by simp [hx]) hmem
        · exact hnd'.1 (hxk ▸ hx)
      obtain ⟨e1, e2, e3⟩ := ih _ hnd'.2 hattrs' hres'
      refine ⟨e1, ?_, ?_⟩
      · rw [e2]; simp [registeredState]
      · rw [e3]; simp [registeredState]

/-- C5 (amended): for a discovery body that is a mapping whose keys are
nonempty, pairwise distinct, and collide with no existing attribute of the
(freshly constructed) connection object, auto-discovery terminates without
error and the registered resource names are exactly the keys of the body,
each registered once, in order. -/
theorem claim_C5_find_resources (st : APIState) (data : List (String × PyVal))
    (hnodup : (data.map Prod.fst).Nodup)
    (hfresh : st.resources = [])
    (hok : ∀ k ∈ data.map Prod.fst, k ≠ "" ∧ k ∉ st.attrs) :
    (TastyPieAPI.find_resources st data).2 = Option.none ∧
    (TastyPieAPI.find_resources st data).1.resources = data.map Prod.fst := by
  have hres : ∀ k ∈ data.map Prod.fst, k ∉ st.resources := by
    intro k _
    rw [hfresh]
    simp
  obtain ⟨e1, e2, _⟩ := findResourcesLoop_ok (data.map Prod.fst) st hnodup hok hres
  refine ⟨e1, ?_⟩
  rw [TastyPieAPI.find_resources] at *
  rw [e2, hfresh]
  simp

/-- Witness for C5 (amended): discovering `users` and `projects` on a fresh
connection registers exactly those two names without error. -/
theorem claim_C5_witness :
    (TastyPieAPI.find_resources c5FreshState
      [("users", PyVal.dict []), ("projects", PyVal.dict [])]).2 = Option.none ∧
    (TastyPieAPI.find_resources c5FreshState
      [("users", PyVal.dict []), ("projects", PyVal.dict [])]).1.resources =
      ["users", "projects"] :=
  claim_C5_find_resources c5FreshState [("users", PyVal.dict []), ("projects", PyVal.dict [])]
    (by simp) (by rfl)
    (by
      intro k hk
      simp only [List.map_cons, List.map_nil, List.mem_cons, List.not_mem_nil] at hk
      rcases hk with h | h | h
      · subst h
        refine ⟨by simp, by simp [c5FreshState, TastyPieAPI.freshState, TastyPieAPI.initialAttrs]⟩
      · subst h
        refine ⟨by simp, by simp [c5FreshState, TastyPieAPI.freshState, TastyPieAPI.initialAttrs]⟩
      · exact absurd h (by simp))

/-! ## C6: the filter hook before dispatch -/

/-- A transport that reports back, as the decoded content, exactly the
params it was handed — making the dispatched parameters observable. -/
def recTr : Transport := fun _ _ ps => Except.ok (0, PyVal.dict ps)

/-- A non-idempotent filter hook: appends a marker entry on each call. -/
def c6Filter : Params → Params := fun ps => ps ++ [("marker", PyVal.int 1)]

/-- C6 counterexample: the filter hook is NOT applied exactly once by every
verb.  With a marker-appending filter and empty params, `post` hands the
transport the doubly-filtered params (resource.py applies `filter` at line
173 and again at line 177), and `delete` hands it the raw params
(resource.py line 234 never calls `filter`); neither equals
`filter(params)`. -/
theorem claim_C6_counterexample :
    RESTResourceHandler.post recTr c6Filter c3Handler [] =
      Except.ok (0, PyVal.dict [("marker", PyVal.int 1), ("marker", PyVal.int 1)]) ∧
    RESTResourceHandler.delete recTr c6Filter c3Handler (PyVal.int 1) [] =
      Except.ok (0, PyVal.dict []) ∧
    c6Filter [] = [("marker", PyVal.int 1)] ∧
    PyVal.dict [("marker", PyVal.int 1), ("marker", PyVal.int 1)] ≠
      PyVal.dict [("marker", PyVal.int 1)] ∧
    PyVal.dict [] ≠ PyVal.dict [("marker", PyVal.int 1)] := by
  refine ⟨rfl, rfl, rfl, by simp, by simp⟩

/-- C6 (amended): for every filter hook `f` and every params, the
parameters actually handed to the transport are `f params` for `get` and
`put`, `f (f params)` for `post` (the hook runs twice), and the unfiltered
`params` for `delete` (the hook never runs). -/
theorem claim_C6_filter_dispatch (f : Params → Params) (h : RESTResourceHandler)
    (rid : PyVal) (ps : Params) :
    RESTResourceHandler.get recTr f h rid ps = Except.ok (0, PyVal.dict (f ps)) ∧
    RESTResourceHandler.put recTr f h rid ps = Except.ok (0, PyVal.dict (f ps)) ∧
    RESTResourceHandler.post recTr f h ps = Except.ok (0, PyVal.dict (f (f ps))) ∧
    RESTResourceHandler.delete recTr f h rid ps = Except.ok (0, PyVal.dict ps) := by
  refine ⟨?_, ?_, ?_, ?_⟩ <;>
    simp [RESTResourceHandler.get, RESTResourceHandler.put,
      RESTResourceHandler.post, RESTResourceHandler.delete, recTr]

/-! ## C7: request paths of the verbs -/

/-- A transport that reports back, as the decoded content, exactly the
path it was asked to request — making the dispatched path observable. -/
def pathTr : Transport := fun _ p _ => Except.ok (0, PyVal.str p)

/-- C7 counterexample: a supplied resource id does NOT always produce the
path `/p/<id>`: the id `0` is falsy, so `get(0)` takes the no-id branch
(resource.py line 144 tests `if resource_id:`) and requests `/users`, not
`/users/0`. -/
theorem claim_C7_counterexample :
    RESTResourceHandler.get pathTr RESTResourceHandler.baseFilter c3Handler (PyVal.int 0) [] =
      Except.ok (0, PyVal.str "/users") ∧
    "/users" ≠ "/users/0" := by
  refine ⟨rfl, by simp⟩

/-- C7 (amended): `get` without an id requests `/p`; `get` with a truthy id
requests `/p/<id>`  (with a falsy id such as `0` it requests `/p`);
`put(id)` and `delete(id)` request `/p/<id>` for every id value; `post`
requests `/p`. -/
theorem claim_C7_request_paths (f : Params → Params) (h : RESTResourceHandler)
    (rid rid2 : PyVal) (ps : Params) (htruthy : rid.truthy = true) :
    RESTResourceHandler.get pathTr f h rid ps =
      Except.ok (0, PyVal.str ("/" ++ h.path ++ "/" ++ rid.pyStr)) ∧
    RESTResourceHandler.get pathTr f h PyVal.none ps =
      Except.ok (0, PyVal.str ("/" ++ h.path)) ∧
    RESTResourceHandler.put pathTr f h rid2 ps =
      Except.ok (0, PyVal.str ("/" ++ h.path ++ "/" ++ rid2.pyStr)) ∧
    RESTResourceHandler.delete pathTr f h rid2 ps =
      Except.ok (0, PyVal.str ("/" ++ h.path ++ "/" ++ rid2.pyStr)) ∧
    RESTResourceHandler.post pathTr f h ps =
      Except.ok (0, PyVal.str ("/" ++ h.path)) := by
  refine ⟨?_, ?_, ?_, ?_, ?_⟩
  · simp [RESTResourceHandler.get, pathTr, htruthy]
  · simp [RESTResourceHandler.get, pathTr, PyVal.truthy]
  · simp [RESTResourceHandler.put, pathTr]
  · simp [RESTResourceHandler.delete, pathTr]
  · simp [RESTResourceHandler.post, pathTr]

/-- Witness for C7 (amended) on the `users` handler with ids `42` and `0`. -/
theorem claim_C7_witness :
    RESTResourceHandler.get pathTr RESTResourceHandler.baseFilter c3Handler (PyVal.int 42) [] =
      Except.ok (0, PyVal.str "/users/42") ∧
    RESTResourceHandler.get pathTr RESTResourceHandler.baseFilter c3Handler PyVal.none [] =
      Except.ok (0, PyVal.str "/users") ∧
    RESTResourceHandler.put pathTr RESTResourceHandler.baseFilter c3Handler (PyVal.int 0) [] =
      Except.ok (0, PyVal.str "/users/0") ∧
    RESTResourceHandler.delete pathTr RESTResourceHandler.baseFilter c3Handler (PyVal.int 0) [] =
      Except.ok (0, PyVal.str "/users/0") ∧
    RESTResourceHandler.post pathTr RESTResourceHandler.baseFilter c3Handler [] =
      Except.ok (0, PyVal.str "/users") :=
  claim_C7_request_paths RESTResourceHandler.baseFilter c3Handler
    (PyVal.int 42) (PyVal.int 0) [] rfl

/-! ## C8 and C9: TastyPie authentication -/

/-- C8: authenticating via the default `api_key` mechanism adds exactly one
`Authorization: ApiKey <user>:<key>` header to the shared request handler
(provided none was present) and changes nothing else about the connection
state; no error is raised. -/
theorem claim_C8_api_key_auth (st : APIState) (user key : String)
    (hno : ∀ p ∈ st.headers, p.1 ≠ "Authorization") :
    TastyPieAPI.auth "api_key" st user key =
      ({ st with headers :=
          st.headers ++ [("Authorization", "ApiKey " ++ user ++ ":" ++ key)] },
        Option.none) := by
  have hany : (st.headers.any (fun p => decide (p.1 = "Authorization"))) = false := by
    rw [List.any_eq_false]
    intro p hp
    simp [hno p hp]
  simp [TastyPieAPI.auth, TastyPieAPI.authMechanizms, TastyPieAPI.authViaApiKey,
    RequestHandler.add_header, hany]

/-- Witness for C8 on a fresh connection and the doc-example credentials. -/
theorem claim_C8_witness :
    TastyPieAPI.auth "api_key" c5FreshState "john.doe" "key123" =
      ({ c5FreshState with headers := [("Authorization", "ApiKey john.doe:key123")] },
        Option.none) :=
  claim_C8_api_key_auth c5FreshState "john.doe" "key123"
    (by simp [c5FreshState, TastyPieAPI.freshState])

/-- C9: `auth` raises the `dRestAPIError` (a configuration error) exactly
when the configured mechanism is outside `Meta.auth_mechanizms =
['api_key', 'basic']`; a mechanism in the set dispatches to the
corresponding `_auth_via_*` method and raises nothing. -/
theorem claim_C9_auth_dispatch (mech : String) (st : APIState) (user key : String) :
    (mech ∉ TastyPieAPI.authMechanizms ↔
      (TastyPieAPI.auth mech st user key).2 =
        Option.some (DRestError.apiError "Unknown TastyPie auth mechanism.")) ∧
    (mech = "api_key" →
      TastyPieAPI.auth mech st user key = (TastyPieAPI.authViaApiKey st user key, Option.none)) ∧
    (mech = "basic" →
      TastyPieAPI.auth mech st user key = (TastyPieAPI.authViaBasic st user key, Option.none)) := by
  unfold TastyPieAPI.auth TastyPieAPI.authMechanizms
  by_cases h1 : mech = "api_key"
  · subst h1; simp
  · by_cases h2 : mech = "basic"
    · subst h2; simp
    · simp [h1, h2]

/-- Witness for C9 at the unsupported mechanism `oauth`. -/
theorem claim_C9_witness :
    ("oauth" ∉ TastyPieAPI.authMechanizms ↔
      (TastyPieAPI.auth "oauth" c5FreshState "u" "k").2 =
        Option.some (DRestError.apiError "Unknown TastyPie auth mechanism.")) ∧
    ("oauth" = "api_key" →
      TastyPieAPI.auth "oauth" c5FreshState "u" "k" =
        (TastyPieAPI.authViaApiKey c5FreshState "u" "k", Option.none)) ∧
    ("oauth" = "basic" →
      TastyPieAPI.auth "oauth" c5FreshState "u" "k" =
        (TastyPieAPI.authViaBasic c5FreshState "u" "k", Option.none)) :=
  claim_C9_auth_dispatch "oauth" c5FreshState "u" "k"
